import Mathlib

/-!
Shallow embedding of rtp-live-monitor.py: the capture-classify-aggregate-render
pipeline of the RTP live monitor, together with theorems checking the design
specification against it.

Frames are lists of byte values.  Python slicing never indexes out of bounds;
a `struct.unpack` on a slice of the wrong size raises `struct.error`.  The
Ethernet-type unpack in the source is not wrapped in a try/except, so that
error escapes; the IP-header and UDP-header unpacks are wrapped and turn the
error into a `continue`.  The embedding captures each of these outcomes as a
distinct constructor.
-/

namespace RTPMonitor

/-- A raw link-layer frame: the sequence of byte values of one capture event. -/
abbrev Frame := List Nat

/-- RTP_HEADER_LEN = 12 in the source. -/
def RTP_HEADER_LEN : Nat := 12

/-- parse_rtp: returns True iff the buffer has at least 12 bytes and
packet[0] >> 6 == 2 (the RTP version field).  Shifting a byte right by 6
is division by 64. -/
def parse_rtp (packet : List Nat) : Bool :=
  if packet.length < RTP_HEADER_LEN then false
  else decide (packet.headI / 64 = 2)

/-- Byte at index i of a frame (indices used by the decoder are always
checked against the length first, so the default is never consulted on the
paths the source takes). -/
def byteAt (f : Frame) (i : Nat) : Nat := f.getD i 0

/-- Big-endian 16-bit field starting at index i (struct format "!H"). -/
def be16 (f : Frame) (i : Nat) : Nat := byteAt f i * 256 + byteAt f (i + 1)

/-- Big-endian 32-bit field starting at index i (struct format "!I"). -/
def be32 (f : Frame) (i : Nat) : Nat :=
  ((byteAt f i * 256 + byteAt f (i + 1)) * 256 + byteAt f (i + 2)) * 256
    + byteAt f (i + 3)

/-- socket.inet_ntoa over struct.pack("!I", n): the dotted-quad string of a
32-bit value. -/
def inet_ntoa (n : Nat) : String :=
  toString (n / 16777216 % 256) ++ "." ++ toString (n / 65536 % 256) ++ "."
    ++ toString (n / 256 % 256) ++ "." ++ toString (n % 256)

/-- The fields the loop extracts from a frame that survives all header
unpacks: lines 74-98 of the source. -/
structure ParsedHeaders where
  eth_type : Nat
  ihl : Nat
  proto : Nat
  src : Nat
  dst : Nat
  src_port : Nat
  dst_port : Nat
  payload : Frame
deriving Repr, DecidableEq

/-- Outcome of one pass of a frame through the header-decoding section of the
loop body (lines 74-100).
`raised` is the uncaught struct.error of the Ethernet-type unpack (line 74
has no try/except); `tooShortIP` and `tooShortUDP` are the caught unpack
errors that the source turns into `continue`. -/
inductive DecodeResult where
  | raised
  | notIPv4
  | tooShortIP
  | notUDP
  | tooShortUDP
  | ok (h : ParsedHeaders)
deriving Repr, DecidableEq

/-- Header decoding, exactly in the order of the source:
Ethernet-type unpack (raises if the frame is shorter than 14 bytes), the
0x0800 ethertype test, the 20-byte IPv4 header unpack at offset 14 (a caught
error if the frame is shorter than 34 bytes), the protocol-17 test, the IHL
computation, and the 8-byte UDP header unpack at offset 14 + ihl (a caught
error if the frame ends before that window). -/
def decodeFrame (f : Frame) : DecodeResult :=
  if f.length < 14 then .raised
  else if be16 f 12 ≠ 0x0800 then .notIPv4
  else if f.length < 34 then .tooShortIP
  else if byteAt f 23 ≠ 17 then .notUDP
  else
    let ihl := (byteAt f 14 % 16) * 4
    if f.length < 14 + ihl + 8 then .tooShortUDP
    else
      .ok { eth_type := be16 f 12, ihl := ihl, proto := byteAt f 23,
            src := be32 f 26, dst := be32 f 30,
            src_port := be16 f (14 + ihl), dst_port := be16 f (14 + ihl + 2),
            payload := f.drop (14 + ihl + 8) }

/-- The port window test 10000 <= p <= 65000 of line 103. -/
def inPortWindow (p : Nat) : Bool := decide (10000 ≤ p ∧ p ≤ 65000)

/-- Classification outcome of one decoded UDP packet. -/
inductive Outcome where
  | Ignored
  | Inbound
  | Outbound
deriving Repr, DecidableEq

/-- Lines 106-111: once the port window has passed, the RTP heuristic gates
counting, and the destination address decides the direction. -/
def countOutcome (h : ParsedHeaders) (host_ips : List String) : Outcome :=
  if parse_rtp h.payload then
    if inet_ntoa h.dst ∈ host_ips then .Inbound else .Outbound
  else .Ignored

/-- The flow classifier (lines 103-111 as one function): port filter, then
heuristic, then directionality. -/
def classify (h : ParsedHeaders) (host_ips : List String) : Outcome :=
  if inPortWindow h.src_port || inPortWindow h.dst_port then
    countOutcome h host_ips
  else .Ignored

/-- The stats dictionary of line 62. -/
structure Stats where
  rx : Int
  tx : Int
  last_rx : Int
  last_tx : Int
deriving Repr, DecidableEq

/-- stats = {"rx": 0, "tx": 0, "last_rx": 0, "last_tx": 0}. -/
def initStats : Stats := { rx := 0, tx := 0, last_rx := 0, last_tx := 0 }

/-- Record an outcome into the counters (lines 107-111). -/
def record (s : Stats) (o : Outcome) : Stats :=
  match o with
  | .Inbound => { s with rx := s.rx + 1 }
  | .Outbound => { s with tx := s.tx + 1 }
  | .Ignored => s

/-- The immutable data rendered on one tick. -/
structure StatsSnapshot where
  rx : Int
  tx : Int
  rx_diff : Int
  tx_diff : Int
deriving Repr, DecidableEq

/-- Lines 114-120: if now - last_time > 1, produce the snapshot with the
deltas, move the counters into last_rx/last_tx and last_time to now;
otherwise leave everything unchanged and produce nothing. -/
def sample (s : Stats) (last_time now : ℚ) :
    Option StatsSnapshot × Stats × ℚ :=
  if now - last_time > 1 then
    (some { rx := s.rx, tx := s.tx,
            rx_diff := s.rx - s.last_rx, tx_diff := s.tx - s.last_tx },
     { s with last_rx := s.rx, last_tx := s.tx }, now)
  else (none, s, last_time)

/-- One cursor-addressed screen write of the renderer. -/
structure ScreenWrite where
  row : Nat
  col : Nat
  text : String
deriving Repr, DecidableEq

/-- Line 127: "#" * min(diff, 50).  Multiplying a Python string by a
non-positive integer yields the empty string, which Int.toNat reproduces. -/
def barFor (d : Int) : String := String.mk (List.replicate (min d 50).toNat '#')

/-- Lines 122-135: the full redraw for one snapshot, as the ordered sequence
of addstr calls the source makes. -/
def render (iface : String) (snap : StatsSnapshot) : List ScreenWrite :=
  [ { row := 0, col := 2,
      text := "RTP LIVE MONITOR (" ++ iface ++ ") — Press Q to Quit" },
    { row := 2, col := 2,
      text := "RX packets: " ++ toString snap.rx ++ " (+"
        ++ toString snap.rx_diff ++ "/s)" },
    { row := 3, col := 2,
      text := "TX packets: " ++ toString snap.tx ++ " (+"
        ++ toString snap.tx_diff ++ "/s)" },
    { row := 5, col := 2, text := "RX Level: " ++ barFor snap.rx_diff },
    { row := 6, col := 2, text := "TX Level: " ++ barFor snap.tx_diff },
    { row := 8, col := 2,
      text := "Direction: "
        ++ (if snap.rx_diff > snap.tx_diff then "<--" else "-->") } ]

/-! ## The capture loop

The loop body (lines 65-143) is modelled as a function of the result of one
recvfrom call, the current clock value, and the pending-key state, producing
the next loop state together with the observable events of the iteration.
A `continue` ends the iteration right there, so only iterations that get past
the port filter reach the sample section and the quit-key poll.  -/

/-- Result of one sock.recvfrom call. -/
inductive ReadResult where
  | timeout
  | readError
  | frame (f : Frame)
deriving Repr, DecidableEq

/-- Result of one stdscr.getkey call: no key pending (the call raises, the
bare except passes) or one key. -/
inductive KeyResult where
  | noKey
  | key (c : Char)
deriving Repr, DecidableEq

/-- Observable events of the loop, in program order. -/
inductive Event where
  | openSock
  | recv
  | recordOutcome (o : Outcome)
  | sampleCall
  | renderTick
  | pollKey
  | quit
  | close
deriving Repr, DecidableEq

/-- The mutable state the loop threads: the stats dictionary and last_time. -/
structure LoopState where
  stats : Stats
  last_time : ℚ
deriving Repr, DecidableEq

/-- How one iteration ends: fall to the next iteration, break out of the
loop (the q key), or crash on the uncaught struct.error of line 74. -/
inductive IterEnd where
  | next (st : LoopState)
  | broke (st : LoopState)
  | crashed
deriving Repr, DecidableEq

/-- Lines 113-135 of the body: the sample test and, when a snapshot is due,
the redraw. -/
def uiSection (st : LoopState) (now : ℚ) : LoopState × List Event :=
  match sample st.stats st.last_time now with
  | (some _, s2, t2) => ({ stats := s2, last_time := t2 }, [.sampleCall, .renderTick])
  | (none, s2, t2) => ({ stats := s2, last_time := t2 }, [.sampleCall])

/-- Lines 137-143: poll getkey; a key whose lower-case form is q breaks the
loop. -/
def keySection (kr : KeyResult) : Bool × List Event :=
  match kr with
  | .noKey => (false, [.pollKey])
  | .key c => (decide (c = 'q' ∨ c = 'Q'), [.pollKey])

/-- One iteration of the while loop (lines 65-143).  Every `continue` of the
source ends the iteration with only the recv event: the timeout and the
swallowed read error (lines 68-71), the non-IPv4 ethertype (line 76), the
caught IP-header unpack error (line 83), the non-UDP protocol (line 86), the
caught UDP-header unpack error (line 100), and the failed port filter
(line 104).  A frame shorter than 14 bytes crashes the loop (line 74). -/
def loopIter (host_ips : List String) (st : LoopState) (rr : ReadResult)
    (now : ℚ) (kr : KeyResult) : IterEnd × List Event :=
  match rr with
  | .timeout => (.next st, [.recv])
  | .readError => (.next st, [.recv])
  | .frame f =>
    match decodeFrame f with
    | .raised => (.crashed, [.recv])
    | .notIPv4 => (.next st, [.recv])
    | .tooShortIP => (.next st, [.recv])
    | .notUDP => (.next st, [.recv])
    | .tooShortUDP => (.next st, [.recv])
    | .ok h =>
      if inPortWindow h.src_port || inPortWindow h.dst_port then
        let o := countOutcome h host_ips
        let st1 := { st with stats := record st.stats o }
        let ui := uiSection st1 now
        let ks := keySection kr
        ((if ks.1 then .broke ui.1 else .next ui.1),
         [.recv, .recordOutcome o] ++ ui.2 ++ ks.2)
      else (.next st, [.recv])

/-- The environment inputs one iteration consumes. -/
structure IterInput where
  rr : ReadResult
  now : ℚ
  kr : KeyResult
deriving Repr, DecidableEq

/-- Run the loop over a finite script of environment inputs, collecting the
events.  The loop of the source only ends by the break (or the crash); an
exhausted script just stops the unrolling. -/
def runLoop (host_ips : List String) : LoopState → List IterInput →
    LoopState × List Event
  | st, [] => (st, [])
  | st, i :: rest =>
    match loopIter host_ips st i.rr i.now i.kr with
    | (.next st2, ev) =>
      let r := runLoop host_ips st2 rest
      (r.1, ev ++ r.2)
    | (.broke st2, ev) => (st2, ev ++ [.quit])
    | (.crashed, ev) => (st, ev)

/-- The whole of main after address resolution (lines 59-143): open the raw
socket, then run the loop.  The source never calls sock.close on any path,
so no close event can ever appear. -/
def mainEvents (host_ips : List String) (t0 : ℚ)
    (script : List IterInput) : List Event :=
  .openSock :: (runLoop host_ips { stats := initStats, last_time := t0 } script).2

/-! ## Auxiliary definitions for the statements -/

/-- The two operations the aggregator state (the stats dictionary together
with last_time) undergoes during the run: counting one outcome, or the
sample test at some clock value. -/
inductive AggOp where
  | count (o : Outcome)
  | tick (now : ℚ)
deriving Repr

/-- Apply one aggregator operation to (stats, last_time). -/
def applyOp (p : Stats × ℚ) (op : AggOp) : Stats × ℚ :=
  match op with
  | .count o => (record p.1 o, p.2)
  | .tick now => ((sample p.1 p.2 now).2.1, (sample p.1 p.2 now).2.2)

/-- The aggregator state after a sequence of operations, from the initial
all-zero stats and an initial last_time. -/
def runAgg (t0 : ℚ) (ops : List AggOp) : Stats × ℚ :=
  ops.foldl applyOp (initStats, t0)

/-- n repeated Record(Inbound) calls with no intervening Sample. -/
def recordInboundN (n : Nat) (s : Stats) : Stats :=
  match n with
  | 0 => s
  | n + 1 => record (recordInboundN n s) .Inbound

/-- The specification invariant on the counters: the values captured at the
previous tick never exceed the cumulative counters. -/
def StatsInv (s : Stats) : Prop := s.last_rx ≤ s.rx ∧ s.last_tx ≤ s.tx

/-- A concrete 54-byte frame: Ethernet header with ethertype 0x0800, a
20-byte IPv4 header with protocol 17 and destination 10.0.0.5, a UDP header
with ports 20000 and 30000, and a 12-byte payload whose first byte is 0x80
(RTP version 2). -/
def demoFrame : Frame :=
  List.replicate 12 0 ++ [8, 0]
    ++ [69, 0, 0, 40, 0, 0, 0, 0, 64, 17, 0, 0, 192, 168, 1, 1, 10, 0, 0, 5]
    ++ [78, 32, 117, 48, 0, 20, 0, 0]
    ++ (128 :: List.replicate 11 0)

/-- Decoded headers of a qualifying packet, with the destination address a
parameter: ports in the window, 12-byte payload starting with byte 0x80. -/
def exampleHeaders (dst : Nat) : ParsedHeaders :=
  { eth_type := 0x0800, ihl := 20, proto := 17, src := 3232235777, dst := dst,
    src_port := 20000, dst_port := 30000,
    payload := 128 :: List.replicate 11 0 }

/-- The rx counter carried by an iteration ending, with a default for the
crash ending, which carries no state. -/
def iterEndRx (e : IterEnd) (d : Int) : Int :=
  match e with
  | .next st2 => st2.stats.rx
  | .broke st2 => st2.stats.rx
  | .crashed => d

/-! ## Theorems -/

/-- For byte values, the test value >> 6 == 2 reads exactly the top two
bits 10. -/
lemma div64_iff_bits (b : Nat) (hb : b < 256) :
    b / 64 = 2 ↔ (Nat.testBit b 7 = true ∧ Nat.testBit b 6 = false) := by
  simp only [Nat.testBit_to_div_mod, decide_eq_true_eq,
    decide_eq_false_iff_not]
  norm_num
  omega

/-- The length of the bar string is the clamped delta. -/
lemma barFor_length (d : Int) : (barFor d).length = (min d 50).toNat := by
  simp [barFor, String.length]

/-- The key poll happens on every pass through lines 137-143. -/
lemma keySection_events (kr : KeyResult) : (keySection kr).2 = [.pollKey] := by
  cases kr <;> rfl

/-- The sample section always runs its test, and renders exactly when a
snapshot is due. -/
lemma uiSection_events (st : LoopState) (now : ℚ) :
    (uiSection st now).2 = [.sampleCall, .renderTick]
      ∨ (uiSection st now).2 = [.sampleCall] := by
  unfold uiSection
  rcases h : sample st.stats st.last_time now with ⟨o, s2, t2⟩
  cases o <;> simp

/-- Claim C1: the specification says a Frame shorter than 14 bytes decodes to
TooShort without raising.  The source instead reaches an unguarded
struct.unpack on the 2-byte Ethernet-type slice, which raises struct.error:
every frame shorter than 14 bytes takes the raised outcome, not a TooShort
skip. -/
theorem decode_short_frame_raises (f : Frame) (hf : f.length < 14) :
    decodeFrame f = .raised := by
  unfold decodeFrame
  rw [if_pos hf]

/-- Witness: the empty frame hits the uncaught unpack error. -/
theorem decode_short_frame_raises_witness : decodeFrame [] = .raised :=
  decode_short_frame_raises [] (by decide)

/-- Claim C4, counterexample: at exactly one time unit after the previous
tick (rx = 137, last_rx = 100, now - last_time = 1) the sample test
now - last_time > 1 is false, so no snapshot is produced — the claim said
this call yields rx-delta 37. -/
theorem sample_at_exact_boundary :
    (sample { rx := 137, tx := 0, last_rx := 100, last_tx := 0 }
      0 1).1 = none := by
  norm_num [sample]

/-- Claim C4 (amended): whenever now - last_time strictly exceeds 1,
Sample yields the snapshot with deltas current minus last, moves the
counters into last_rx/last_tx and last_time to now; otherwise it yields
nothing and changes nothing.  With rx moving 100 to 137, a Sample strictly
after one unit (at 3/2) yields rx-delta 37, and a second Sample before the
next interval elapses (at 9/5) yields no snapshot. -/
theorem sample_tick_semantics (s : Stats) (lt now : ℚ) :
    (now - lt > 1 → sample s lt now =
      (some { rx := s.rx, tx := s.tx, rx_diff := s.rx - s.last_rx,
              tx_diff := s.tx - s.last_tx },
       { s with last_rx := s.rx, last_tx := s.tx }, now)) ∧
    (¬ now - lt > 1 → sample s lt now = (none, s, lt)) ∧
    sample { rx := 137, tx := 0, last_rx := 100, last_tx := 0 } 0 (3/2) =
      (some { rx := 137, tx := 0, rx_diff := 37, tx_diff := 0 },
       { rx := 137, tx := 0, last_rx := 137, last_tx := 0 }, 3/2) ∧
    (sample { rx := 137, tx := 0, last_rx := 137, last_tx := 0 }
      (3/2) (9/5)).1 = none := by
  refine ⟨?_, ?_, ?_, ?_⟩
  · intro h
    simp [sample, h]
  · intro h
    simp [sample, h]
  · norm_num [sample]
  · norm_num [sample]

/-- Claim C6: parse_rtp returns false on every buffer of fewer than 12
bytes, and on a buffer of 12 or more bytes it returns true exactly when the
top two bits of the first byte are 10 in binary. -/
theorem parse_rtp_characterization (p : List Nat) (b : Nat) (rest : List Nat) :
    (p.length < 12 → parse_rtp p = false) ∧
    (p = b :: rest → 12 ≤ p.length → b < 256 →
      (parse_rtp p = true ↔
        (Nat.testBit b 7 = true ∧ Nat.testBit b 6 = false))) := by
  constructor
  · intro hlen
    simp [parse_rtp, RTP_HEADER_LEN, hlen]
  · rintro rfl hlen hb
    have hnot : ¬ (b :: rest).length < RTP_HEADER_LEN := by
      simp only [RTP_HEADER_LEN]
      omega
    unfold parse_rtp
    rw [if_neg hnot]
    simp only [List.headI, decide_eq_true_eq]
    exact div64_iff_bits b hb

/-- Claim C7: for a decoded UDP packet that passes the port filter and the
RTP heuristic, the outcome is Inbound exactly when the destination address
is one of the host addresses, and Outbound exactly otherwise. -/
theorem classify_direction (h : ParsedHeaders) (host_ips : List String)
    (hw : (inPortWindow h.src_port || inPortWindow h.dst_port) = true)
    (hr : parse_rtp h.payload = true) :
    (classify h host_ips = .Inbound ↔ inet_ntoa h.dst ∈ host_ips) ∧
    (classify h host_ips = .Outbound ↔ inet_ntoa h.dst ∉ host_ips) := by
  by_cases hm : inet_ntoa h.dst ∈ host_ips <;>
    simp [classify, countOutcome, hw, hr, hm]

/-- Witness for C7, the example of the specification: with HostAddressSet
10.0.0.5, a qualifying packet to 10.0.0.5 classifies Inbound and the same
packet to 10.0.0.9 classifies Outbound. -/
theorem classify_direction_witness :
    classify (exampleHeaders 167772165) ["10.0.0.5"] = .Inbound ∧
    classify (exampleHeaders 167772169) ["10.0.0.5"] = .Outbound := by
  constructor
  · exact (classify_direction (exampleHeaders 167772165) ["10.0.0.5"]
      (by decide) (by decide)).1.mpr (by decide)
  · exact (classify_direction (exampleHeaders 167772169) ["10.0.0.5"]
      (by decide) (by decide)).2.mpr (by decide)

/-- Claim C8: with both ports outside the window 10000 to 65000 the
classification is Ignored whatever the payload holds, and with at least one
port inside the window the result is exactly the heuristic-gated decision
over the payload. -/
theorem port_filter_ignores (h : ParsedHeaders) (host_ips : List String) :
    (inPortWindow h.src_port = false → inPortWindow h.dst_port = false →
      ∀ pl : Frame, classify { h with payload := pl } host_ips = .Ignored) ∧
    ((inPortWindow h.src_port || inPortWindow h.dst_port) = true →
      classify h host_ips =
        (if parse_rtp h.payload = true then
          (if inet_ntoa h.dst ∈ host_ips then Outcome.Inbound else .Outbound)
         else .Ignored)) := by
  constructor
  · intro hs hd pl
    simp [classify, hs, hd]
  · intro hw
    simp [classify, countOutcome, hw]

/-- Claim C9: a rendered bar has exactly min(delta, 50) characters — 73
renders 50 and 12 renders 12 — while the rendered counter line shows the
cumulative count and the per-second delta verbatim, and the snapshot the
sampler produces carries the raw unclamped deltas. -/
theorem bar_gauge_clamp (iface : String) (snap : StatsSnapshot) :
    (∀ d : Int, 0 ≤ d → (barFor d).length = (min d 50).toNat) ∧
    (barFor 73).length = 50 ∧ (barFor 12).length = 12 ∧
    ((render iface snap).get? 3).map ScreenWrite.text
      = some ("RX Level: " ++ barFor snap.rx_diff) ∧
    ((render iface snap).get? 1).map ScreenWrite.text
      = some ("RX packets: " ++ toString snap.rx ++ " (+"
          ++ toString snap.rx_diff ++ "/s)") ∧
    (∀ s : Stats, ∀ lt now : ℚ, now - lt > 1 →
      (sample s lt now).1
        = some ⟨s.rx, s.tx, s.rx - s.last_rx, s.tx - s.last_tx⟩) := by
  refine ⟨?_, ?_, ?_, ?_, ?_, ?_⟩
  · intro d _
    exact barFor_length d
  · rw [barFor_length]
    decide
  · rw [barFor_length]
    decide
  · rfl
  · rfl
  · intro s lt now hnow
    simp [sample, hnow]

/-- Record never decreases either counter. -/
lemma record_mono (s : Stats) (o : Outcome) :
    s.rx ≤ (record s o).rx ∧ s.tx ≤ (record s o).tx := by
  rcases o <;> simp [record]

/-- The sample step copies the counters and never alters them. -/
lemma sample_stats_fields (s : Stats) (lt now : ℚ) :
    (sample s lt now).2.1.rx = s.rx ∧ (sample s lt now).2.1.tx = s.tx := by
  unfold sample
  split_ifs <;> simp

/-- Each aggregator operation preserves the counter invariant. -/
lemma applyOp_inv (p : Stats × ℚ) (op : AggOp) (h : StatsInv p.1) :
    StatsInv (applyOp p op).1 := by
  obtain ⟨h1, h2⟩ := h
  rcases op with o | now
  · rcases o <;> simp [applyOp, record, StatsInv] <;> omega
  · simp only [applyOp, sample]
    split_ifs
    · simp [StatsInv]
    · exact ⟨h1, h2⟩

/-- The invariant holds after any fold of aggregator operations. -/
lemma foldl_applyOp_inv (ops : List AggOp) (p : Stats × ℚ)
    (h : StatsInv p.1) : StatsInv ((ops.foldl applyOp p).1) := by
  induction ops generalizing p with
  | nil => exact h
  | cons op rest ih => exact ih (applyOp p op) (applyOp_inv p op h)

/-- n repeated Record(Inbound) calls add n to rx and leave last_rx (and the
tx side) untouched. -/
lemma recordInboundN_fields (n : Nat) (s : Stats) :
    (recordInboundN n s).rx = s.rx + n
      ∧ (recordInboundN n s).last_rx = s.last_rx := by
  induction n with
  | zero => simp [recordInboundN]
  | succ n ih =>
    obtain ⟨ih1, ih2⟩ := ih
    simp [recordInboundN, record, ih1, ih2]
    ring

/-- Claim C5: the counters never fall below their last-sampled values after
any sequence of aggregator operations, both operations are monotone in rx
and tx, the tick deltas are never negative, and repeated Record(Inbound)
calls without an intervening Sample add exactly their number to rx while
leaving last_rx unchanged. -/
theorem stats_counters_invariant (t0 : ℚ) (ops : List AggOp) (s : Stats)
    (o : Outcome) (n : Nat) (lt now : ℚ) :
    StatsInv (runAgg t0 ops).1 ∧
    (0 ≤ (runAgg t0 ops).1.rx - (runAgg t0 ops).1.last_rx
      ∧ 0 ≤ (runAgg t0 ops).1.tx - (runAgg t0 ops).1.last_tx) ∧
    (s.rx ≤ (record s o).rx ∧ s.tx ≤ (record s o).tx) ∧
    (s.rx ≤ (sample s lt now).2.1.rx ∧ s.tx ≤ (sample s lt now).2.1.tx) ∧
    ((recordInboundN n s).rx = s.rx + n
      ∧ (recordInboundN n s).last_rx = s.last_rx) ∧
    (1 ≤ n → s.rx < (recordInboundN n s).rx) := by
  have hinv : StatsInv (runAgg t0 ops).1 :=
    foldl_applyOp_inv ops (initStats, t0) (by simp [StatsInv, initStats])
  obtain ⟨hinv1, hinv2⟩ := hinv
  obtain ⟨hf1, hf2⟩ := recordInboundN_fields n s
  refine ⟨⟨hinv1, hinv2⟩, ⟨by omega, by omega⟩, record_mono s o, ?_, ⟨hf1, hf2⟩, ?_⟩
  · obtain ⟨e1, e2⟩ := sample_stats_fields s lt now
    exact ⟨le_of_eq e1.symm, le_of_eq e2.symm⟩
  · intro hn
    rw [hf1]
    omega

/-- With no host addresses, the counting branch never classifies Inbound. -/
lemma countOutcome_empty_ne_inbound (h : ParsedHeaders) :
    countOutcome h [] ≠ .Inbound := by
  unfold countOutcome
  split_ifs <;> simp_all

/-- Recording a non-Inbound outcome leaves rx unchanged. -/
lemma record_rx_not_inbound (s : Stats) (o : Outcome) (ho : o ≠ .Inbound) :
    (record s o).rx = s.rx := by
  rcases o
  · rfl
  · exact absurd rfl ho
  · rfl

/-- The sample section never alters rx. -/
lemma uiSection_rx (st : LoopState) (now : ℚ) :
    (uiSection st now).1.stats.rx = st.stats.rx := by
  have h := (sample_stats_fields st.stats st.last_time now).1
  rcases hs : sample st.stats st.last_time now with ⟨o, s2, t2⟩
  rw [hs] at h
  simp only [uiSection, hs]
  cases o <;> simpa using h

/-- With an empty host address set, no iteration ever changes rx. -/
lemma loopIter_rx_empty (st : LoopState) (rr : ReadResult) (now : ℚ)
    (kr : KeyResult) :
    iterEndRx (loopIter [] st rr now kr).1 st.stats.rx = st.stats.rx := by
  rcases rr with _ | _ | f
  · rfl
  · rfl
  · rcases hD : decodeFrame f with _ | _ | _ | _ | _ | h
    · simp [loopIter, hD, iterEndRx]
    · simp [loopIter, hD, iterEndRx]
    · simp [loopIter, hD, iterEndRx]
    · simp [loopIter, hD, iterEndRx]
    · simp [loopIter, hD, iterEndRx]
    · by_cases hw : (inPortWindow h.src_port || inPortWindow h.dst_port) = true
      · have hrec : (record st.stats (countOutcome h [])).rx = st.stats.rx :=
          record_rx_not_inbound st.stats (countOutcome h [])
            (countOutcome_empty_ne_inbound h)
        by_cases hq : (keySection kr).1 = true <;>
          simp [loopIter, hD, hw, hq, iterEndRx, uiSection_rx, hrec]
      · simp [loopIter, hD, hw, iterEndRx]

/-- With an empty host address set, rx is invariant across the whole run. -/
lemma runLoop_rx_empty (script : List IterInput) (st : LoopState) :
    (runLoop [] st script).1.stats.rx = st.stats.rx := by
  induction script generalizing st with
  | nil => rfl
  | cons i rest ih =>
    have hIter := loopIter_rx_empty st i.rr i.now i.kr
    rcases hE : loopIter [] st i.rr i.now i.kr with ⟨e, ev⟩
    rw [hE] at hIter
    rcases e with st2 | st2 | _
    · have h2 : st2.stats.rx = st.stats.rx := hIter
      simp only [runLoop, hE]
      rw [ih st2, h2]
    · have h2 : st2.stats.rx = st.stats.rx := hIter
      simp only [runLoop, hE]
      exact h2
    · simp only [runLoop, hE]

/-- Claim C10: with an empty HostAddressSet every qualifying packet
classifies Outbound, recording Outbound increments only tx, and over any
run of the loop with no host addresses rx stays 0 forever. -/
theorem empty_host_set_all_outbound (t0 : ℚ) (s : Stats) :
    (∀ h : ParsedHeaders,
      (inPortWindow h.src_port || inPortWindow h.dst_port) = true →
      parse_rtp h.payload = true → classify h [] = .Outbound) ∧
    ((record s .Outbound).tx = s.tx + 1 ∧ (record s .Outbound).rx = s.rx) ∧
    (∀ script : List IterInput,
      (runLoop [] { stats := initStats, last_time := t0 } script).1.stats.rx
        = 0) := by
  refine ⟨?_, ⟨rfl, rfl⟩, ?_⟩
  · intro h hw hr
    simp [classify, countOutcome, hw, hr]
  · intro script
    rw [runLoop_rx_empty script { stats := initStats, last_time := t0 }]
    rfl

/-- Claim C2, counterexample: an iteration that ends in a read timeout
produces only the recv event — the sample section never runs and no key is
polled, even with the previous tick 5 time units in the past. -/
theorem loop_skip_counterexample :
    (loopIter [] { stats := initStats, last_time := 0 } .timeout 5 .noKey).2
        = [.recv] ∧
    Event.sampleCall ∉
      (loopIter [] { stats := initStats, last_time := 0 } .timeout 5 .noKey).2
      ∧
    Event.pollKey ∉
      (loopIter [] { stats := initStats, last_time := 0 } .timeout 5
        .noKey).2 := by
  refine ⟨rfl, ?_, ?_⟩ <;> simp [loopIter]

/-- Claim C2 (amended): the sample section and the key poll run only on
iterations in which a frame was read, decoded through to UDP, and passed
the port window; iterations ending in a read timeout, a swallowed read
error, or any skip produce only the recv event, so the dashboard does not
tick without qualifying traffic. -/
theorem loop_sample_poll_iff (host_ips : List String) (st : LoopState)
    (now : ℚ) (kr : KeyResult) :
    ((loopIter host_ips st .timeout now kr).2 = [.recv]) ∧
    ((loopIter host_ips st .readError now kr).2 = [.recv]) ∧
    (∀ f : Frame,
      (Event.sampleCall ∈ (loopIter host_ips st (.frame f) now kr).2 ↔
        ∃ h, decodeFrame f = .ok h ∧
          (inPortWindow h.src_port || inPortWindow h.dst_port) = true) ∧
      (Event.pollKey ∈ (loopIter host_ips st (.frame f) now kr).2 ↔
        ∃ h, decodeFrame f = .ok h ∧
          (inPortWindow h.src_port || inPortWindow h.dst_port) = true)) := by
  refine ⟨rfl, rfl, ?_⟩
  intro f
  rcases hD : decodeFrame f with _ | _ | _ | _ | _ | h
  · simp [loopIter, hD]
  · simp [loopIter, hD]
  · simp [loopIter, hD]
  · simp [loopIter, hD]
  · simp [loopIter, hD]
  · by_cases hw : (inPortWindow h.src_port || inPortWindow h.dst_port) = true
    · have hR : ∃ h2, DecodeResult.ok h = .ok h2 ∧
          (inPortWindow h2.src_port || inPortWindow h2.dst_port) = true :=
        ⟨h, rfl, hw⟩
      have hS : Event.sampleCall
          ∈ (loopIter host_ips st (.frame f) now kr).2 := by
        rcases uiSection_events
          { st with stats := record st.stats (countOutcome h host_ips) } now
          with hui | hui <;>
        simp [loopIter, hD, hw, hui, keySection_events]
      have hP : Event.pollKey
          ∈ (loopIter host_ips st (.frame f) now kr).2 := by
        rcases uiSection_events
          { st with stats := record st.stats (countOutcome h host_ips) } now
          with hui | hui <;>
        simp [loopIter, hD, hw, hui, keySection_events]
      exact ⟨iff_of_true hS hR, iff_of_true hP hR⟩
    · have hR : ¬ ∃ h2, DecodeResult.ok h = .ok h2 ∧
          (inPortWindow h2.src_port || inPortWindow h2.dst_port) = true := by
        rintro ⟨h2, hEq, hw2⟩
        injection hEq with hh
        subst hh
        exact hw hw2
      have hL : (loopIter host_ips st (.frame f) now kr).2 = [.recv] := by
        simp [loopIter, hD, hw]
      refine ⟨iff_of_false ?_ hR, iff_of_false ?_ hR⟩ <;>
        rw [hL] <;> simp

/-- No single iteration ever emits a close event. -/
lemma close_not_in_loopIter (hosts : List String) (st : LoopState)
    (rr : ReadResult) (now : ℚ) (kr : KeyResult) :
    Event.close ∉ (loopIter hosts st rr now kr).2 := by
  rcases rr with _ | _ | f
  · simp [loopIter]
  · simp [loopIter]
  · rcases hD : decodeFrame f with _ | _ | _ | _ | _ | h
    · simp [loopIter, hD]
    · simp [loopIter, hD]
    · simp [loopIter, hD]
    · simp [loopIter, hD]
    · simp [loopIter, hD]
    · by_cases hw : (inPortWindow h.src_port || inPortWindow h.dst_port) = true
      · rcases uiSection_events
          { st with stats := record st.stats (countOutcome h hosts) } now
          with hui | hui <;>
        simp [loopIter, hD, hw, hui, keySection_events]
      · simp [loopIter, hD, hw]

/-- No run of the loop ever emits a close event. -/
lemma close_not_in_runLoop (hosts : List String) (script : List IterInput)
    (st : LoopState) :
    Event.close ∉ (runLoop hosts st script).2 := by
  induction script generalizing st with
  | nil => simp [runLoop]
  | cons i rest ih =>
    have hIt : Event.close ∉ (loopIter hosts st i.rr i.now i.kr).2 :=
      close_not_in_loopIter hosts st i.rr i.now i.kr
    rcases hE : loopIter hosts st i.rr i.now i.kr with ⟨e, ev⟩
    rw [hE] at hIt
    rcases e with st2 | st2 | _
    · simp only [runLoop, hE, List.mem_append, not_or]
      exact ⟨hIt, ih st2⟩
    · simp only [runLoop, hE, List.mem_append, not_or]
      refine ⟨hIt, by simp⟩
    · simp only [runLoop, hE]
      exact hIt

/-- Claim C3, counterexample: a run that reads one qualifying frame and
quits on the q key ends with the quit event and no close event — the source
never calls sock.close, so the handle is left to interpreter teardown. -/
theorem socket_left_open_on_quit :
    Event.quit ∈ mainEvents ["10.0.0.5"] 0
      [{ rr := .frame demoFrame, now := 5, kr := .key 'q' }] ∧
    Event.close ∉ mainEvents ["10.0.0.5"] 0
      [{ rr := .frame demoFrame, now := 5, kr := .key 'q' }] := by
  constructor
  · have hD : decodeFrame demoFrame = .ok (exampleHeaders 167772165) := by
      decide
    have hW : (inPortWindow (exampleHeaders 167772165).src_port
        || inPortWindow (exampleHeaders 167772165).dst_port) = true := by
      decide
    simp [mainEvents, runLoop, loopIter, hD, hW, keySection]
  · intro hmem
    simp only [mainEvents, List.mem_cons] at hmem
    rcases hmem with h | h
    · simp at h
    · exact close_not_in_runLoop ["10.0.0.5"] _ _ h

/-- Claim C3 (amended): no exit path of the loop releases the capture
handle: across every possible run, the event trace of main contains no
close of the raw socket. -/
theorem capture_handle_never_closed (host_ips : List String) (t0 : ℚ)
    (script : List IterInput) :
    (mainEvents host_ips t0 script).count Event.close = 0 := by
  rw [List.count_eq_zero]
  unfold mainEvents
  simp only [List.mem_cons, not_or]
  exact ⟨by simp, close_not_in_runLoop host_ips script _⟩

end RTPMonitor
